import Mathlib

/-!
Verification of the DES-system-design feedback/memory core.

Shallow embedding of:
- `src/web_backend/services/feedback_service.py` (validation, submission,
  background processing, status polling),
- `src/web_backend/services/memory_service.py` (memory creation and update),
- `scripts/migrate_index_to_v2.py` (index migration).

Python floats are modelled as `ℚ` (the comparisons the code performs — `< 0`,
`> 0`, `> 1000` — are exact in both). Python `None` is `Option.none`; raised
exceptions are `Except.error` values; in-place mutation of an object is
modelled by returning the updated object alongside the result.
-/

namespace DES

/-! ## Data model: feedback requests (models.schemas.ExperimentResultRequest) -/

/-- The caller-supplied experiment result
(`ExperimentResultRequest` in `models/schemas.py`, as consumed by
`feedback_service.py`). `properties` is an open key/value map, modelled as an
association list. -/
structure ExperimentResultRequest where
  is_liquid_formed : Bool
  solubility : Option ℚ
  solubility_unit : Option String
  properties : List (String × String)
  experimenter : Option String
  notes : Option String
deriving Repr, DecidableEq

/-- The distinct `ValueError` messages raised by
`FeedbackService.submit_feedback` / `_validate_experiment_result`, one
constructor per raise site. -/
inductive FeedbackError where
  | notFound (id : String)
  | cancelledConflict (id : String)
  | solubilityRequired
  | negativeSolubility
deriving Repr, DecidableEq

/-- Python truthiness of `exp_result.solubility and exp_result.solubility > 0`:
`None` and `0.0` are falsy, otherwise the comparison `> 0` decides. -/
def solubilityPositive (sol : Option ℚ) : Bool :=
  match sol with
  | none => false
  | some s => decide (0 < s)

/-- `FeedbackService._validate_experiment_result`
(`feedback_service.py`, lines 242-275). Returns the (possibly mutated)
request together with the two warning flags the code logs: the
coerced-solubility warning and the very-high-solubility warning. Mutation of
`exp_result.solubility` in place is modelled by the returned request. -/
def validate_experiment_result (r : ExperimentResultRequest) :
    Except FeedbackError (ExperimentResultRequest × Bool × Bool) :=
  if r.is_liquid_formed && r.solubility.isNone then
    .error .solubilityRequired
  else
    let coercionWarning := !r.is_liquid_formed && solubilityPositive r.solubility
    let r1 := if coercionWarning then { r with solubility := none } else r
    match r1.solubility with
    | none => .ok (r1, coercionWarning, false)
    | some s =>
        if s < 0 then .error .negativeSolubility
        else .ok (r1, coercionWarning, decide (1000 < s))

/-! ## Recommendation lookup state -/

/-- Recommendation status values (`Recommendation.status`). -/
inductive RecStatus where
  | PENDING | PROCESSING | COMPLETED | FAILED | CANCELLED
deriving Repr, DecidableEq

/-- Outcome of an accepted submission: whether the already-has-feedback
warning was logged (current status `COMPLETED`), the request as left by
validation (the caller's object, mutated in place), and the two validation
warning flags. -/
structure SubmitAccepted where
  warnedResubmission : Bool
  request : ExperimentResultRequest
  coercionWarning : Bool
  highSolubilityWarning : Bool
deriving Repr, DecidableEq

/-- The guard portion of `FeedbackService.submit_feedback`
(`feedback_service.py`, lines 60-104): look up the recommendation
(`recs` models `rec_manager.get_recommendation`, giving the current status),
fail on an unknown id, fail on a `CANCELLED` recommendation, log a warning on
a `COMPLETED` one, then validate the experiment result. On success the call
proceeds to the async or sync path with the validated request. -/
def submit_feedback (recs : String → Option RecStatus) (id : String)
    (r : ExperimentResultRequest) : Except FeedbackError SubmitAccepted :=
  match recs id with
  | none => .error (.notFound id)
  | some st =>
      if st = .CANCELLED then .error (.cancelledConflict id)
      else
        match validate_experiment_result r with
        | .error e => .error e
        | .ok (r1, cw, hw) => .ok ⟨st = .COMPLETED, r1, cw, hw⟩

/-! ## Asynchronous processing state (FeedbackService) -/

/-- Status values stored in `FeedbackService.processing_status` records. -/
inductive ProcStatus where
  | processing | completed | failed
deriving Repr, DecidableEq

/-- The `result` dict built by `_background_process_feedback` on success
(`feedback_service.py`, lines 189-197). -/
structure ProcessResult where
  solubility : Option ℚ
  solubility_unit : Option String
  is_liquid_formed : Option Bool
  memories_extracted : List String
  num_memories : ℕ
  is_update : Bool
  deleted_memories : ℕ
deriving Repr, DecidableEq

/-- One entry of `FeedbackService.processing_status`
(`{rec_id: {"status": ..., "result": ..., "error": ...}}`). The timestamp
fields (`started_at`, `completed_at`, `failed_at`) are wall-clock strings and
carry no information the claims mention; they are elided. -/
structure StatusRecord where
  status : ProcStatus
  result : Option ProcessResult
  error : Option String
deriving Repr, DecidableEq

/-- The shared mutable state touched by the asynchronous path: the
recommendation store statuses (through `rec_manager.update_status`) and the
service's `processing_status` map. -/
structure ServiceState where
  recStatus : String → Option RecStatus
  processing_status : String → Option StatusRecord

/-- `FeedbackService._submit_feedback_async` (`feedback_service.py`,
lines 139-168): set the recommendation to `PROCESSING`, initialise the
per-id status record to `processing` with no result and no error, and hand
the work to the thread pool; the caller receives the `accepted`
acknowledgment immediately. -/
def submit_feedback_async (s : ServiceState) (id : String) : ServiceState :=
  { recStatus := Function.update s.recStatus id (some .PROCESSING)
  , processing_status :=
      Function.update s.processing_status id
        (some { status := .processing, result := none, error := none }) }

/-- `FeedbackService._background_process_feedback` (`feedback_service.py`,
lines 170-218), run on the worker pool. The agent call
`agent.submit_experiment_feedback` together with everything else inside the
`try` block is abstracted as `outcome`: `Except.ok` carries the success
result dict, `Except.error` carries the message of whatever exception was
raised (including the `RuntimeError` raised on a non-success status).
The function is total: the `except` clause converts every exception into a
`FAILED` recommendation status and a `failed` status record, so nothing
propagates out of the background task. -/
def background_process_feedback (s : ServiceState) (id : String)
    (outcome : Except String ProcessResult) : ServiceState :=
  match outcome with
  | .ok res =>
      { s with processing_status :=
          (Function.update s.processing_status id
            (some { status := .completed, result := some res, error := none })) }
  | .error e =>
      { recStatus := Function.update s.recStatus id (some .FAILED)
      , processing_status :=
          Function.update s.processing_status id
            (some { status := .failed, result := none, error := some e }) }

/-- `FeedbackService.check_processing_status` (`feedback_service.py`,
lines 220-240): a plain lookup in the `processing_status` map under the
status lock — `self.processing_status.get(recommendation_id)` — returning
`None` when the id has no entry. It performs no wait on the executor. -/
def check_processing_status (s : ServiceState) (id : String) :
    Option StatusRecord :=
  s.processing_status id

/-- Events that mutate the asynchronous state: a submission accepted into
the pool, or a background task finishing with the given outcome. -/
inductive FeedbackEvent where
  | submit (id : String)
  | background (id : String) (outcome : Except String ProcessResult)

/-- Apply one event to the service state. -/
def applyEvent (s : ServiceState) : FeedbackEvent → ServiceState
  | .submit id => submit_feedback_async s id
  | .background id outcome => background_process_feedback s id outcome

/-- Run a sequence of events from a state. -/
def runEvents (s : ServiceState) (t : List FeedbackEvent) : ServiceState :=
  t.foldl applyEvent s

/-- Initial service state: `processing_status` starts as the empty dict
(`FeedbackService.__init__`); the recommendation store contents `r0`
pre-exist. -/
def initState (r0 : String → Option RecStatus) : ServiceState :=
  { recStatus := r0, processing_status := fun _ => none }

/-- The id an event concerns. -/
def FeedbackEvent.key : FeedbackEvent → String
  | .submit id => id
  | .background id _ => id

/-! ## Performance score and the agent-side experiment result -/

/-- The agent-side experiment result
(`agent.reasoningbank.ExperimentResult`); only the two fields the
performance score depends on are needed here. Its implementation file
(`src/agent/reasoningbank/feedback.py`) is not among the sources. -/
structure AgentExperimentResult where
  is_liquid_formed : Bool
  solubility : Option ℚ
deriving Repr, DecidableEq

/-- Modelled from the spec: `ExperimentResult.get_performance_score` lives in
`src/agent/reasoningbank/feedback.py`, which is not among the sources. The
spec describes it as a pure deterministic function of `is_liquid_formed` and
`solubility` with range [0, 10]: 0 when no liquid formed, otherwise
monotonic non-decreasing in solubility and saturating at 10. This model
clamps the solubility into [0, 10] when liquid formed (0 when solubility is
absent), which satisfies exactly those words. -/
def get_performance_score (er : AgentExperimentResult) : ℚ :=
  if er.is_liquid_formed then
    match er.solubility with
    | some s => max 0 (min 10 s)
    | none => 0
  else 0

/-! ## Index migration (scripts/migrate_index_to_v2.py) -/

/-- A formulation is a structured dict; modelled as an association list of
component names to amounts rendered as strings. Its concrete shape never
matters to the migration logic. -/
abbrev Formulation : Type := List (String × String)

/-- One entry of the recommendation index
(`index.json`: `id → {status, target_material, formulation_summary,
formulation, confidence, performance_score, created_at, updated_at}`).
The v2 projection fields may be missing from a pre-migration entry, so each
is wrapped in an outer `Option` meaning key presence; `performance_score`
is itself nullable (`null` when the recommendation has no experiment
result), hence the nested `Option`. -/
structure IndexEntry where
  status : String
  target_material : String
  created_at : String
  updated_at : String
  formulation_summary : Option String
  formulation : Option Formulation
  confidence : Option ℚ
  performance_score : Option (Option ℚ)
deriving Repr, DecidableEq

/-- A full recommendation record as the migration reads it
(`rec_manager.get_recommendation(rec_id)`): only the fields the migration
projects into the index. `Recommendation` itself is declared in
`src/agent/reasoningbank/feedback.py`, not among the sources; the fields
follow the spec's data model. -/
structure RecommendationRecord where
  formulation : Formulation
  confidence : ℚ
  experiment_result : Option AgentExperimentResult
deriving Repr, DecidableEq

/-- How the loop body of `migrate_index` classifies one entry. -/
inductive MigrateOutcome where
  | migrated | skipped | errored
deriving Repr, DecidableEq

/-- One iteration of the migration loop (`migrate_index_to_v2.py`,
lines 55-83). `recs` models `rec_manager.get_recommendation` (`none` both
for a missing record and for a load failure, either of which the script
counts as an error and leaves the entry untouched); `summary` models
`rec_manager._get_formulation_summary`, declared in
`src/agent/reasoningbank/feedback.py` which is not among the sources.
The already-migrated test is the dict key-presence check
`"formulation" in meta and "confidence" in meta`. -/
def migrateEntry (recs : String → Option RecommendationRecord)
    (summary : Formulation → String) (id : String) (meta : IndexEntry) :
    IndexEntry × MigrateOutcome :=
  if meta.formulation.isSome && meta.confidence.isSome then
    (meta, .skipped)
  else
    match recs id with
    | none => (meta, .errored)
    | some rec =>
        ({ meta with
            formulation_summary := some (summary rec.formulation)
            formulation := some rec.formulation
            confidence := some rec.confidence
            performance_score :=
              some (rec.experiment_result.map get_performance_score) },
          .migrated)

/-- What one invocation of the migration produces: the backup written before
the loop, the updated index saved after it, the reported counts, and the
success flag (`errors = 0`) that decides the exit code. -/
structure MigrationResult where
  backup : List (String × IndexEntry)
  index : List (String × IndexEntry)
  migrated : ℕ
  skipped : ℕ
  errors : ℕ
  success : Bool
deriving Repr, DecidableEq

/-- `migrate_index` (`migrate_index_to_v2.py`, lines 35-104): dump the
pre-migration index to a timestamped backup file, then walk a snapshot of
the index items, updating each entry in place per `migrateEntry` (entries
are keyed independently, so the walk is a map), save the updated index, and
report the counts; the run succeeds iff no entry errored. The index is an
insertion-ordered dict, modelled as an association list; byte-for-byte
identity of the serialized file corresponds to equality of this list, since
`json.dump` is deterministic on equal insertion-ordered content. -/
def migrate_index (recs : String → Option RecommendationRecord)
    (summary : Formulation → String) (index : List (String × IndexEntry)) :
    MigrationResult :=
  let results := index.map fun p => (p.1, migrateEntry recs summary p.1 p.2)
  { backup := index
  , index := results.map fun p => (p.1, p.2.1)
  , migrated := results.countP fun p => p.2.2 = .migrated
  , skipped := results.countP fun p => p.2.2 = .skipped
  , errors := results.countP fun p => p.2.2 = .errored
  , success := (results.countP fun p => p.2.2 = .errored) = 0 }

/-! ## Memory store and memory service -/

/-- An embedding vector; the fixed length never matters to the claims. -/
abbrev Embedding : Type := List ℚ

/-- `MemoryItem` (`agent.reasoningbank.memory.MemoryItem`), per the spec's
data model: title (unique key), description, content, success flag,
nullable source task id, creation timestamp, nullable embedding, open
metadata map. -/
structure MemoryItem where
  title : String
  description : String
  content : String
  is_from_success : Bool
  source_task_id : Option String
  created_at : String
  embedding : Option Embedding
  metadata : List (String × String)
deriving Repr, DecidableEq

/-- The memory bank contents, in insertion order (oldest first). -/
abbrev MemoryBank : Type := List MemoryItem

/-- Modelled from the spec: `ReasoningBank.get_memory_by_title` lives in
`src/agent/reasoningbank/memory_manager.py`, which is not among the
sources. Per the spec it is an exact title match; `memory_service.py`
treats its result as falsy when absent, so it returns the item or `none`. -/
def get_memory_by_title (bank : MemoryBank) (title : String) :
    Option MemoryItem :=
  bank.find? fun m => m.title == title

/-- Modelled from the spec: `ReasoningBank.add_memory` lives in
`src/agent/reasoningbank/memory_manager.py`, which is not among the
sources. Per the spec's `add(item, compute_embedding)`: fail with a
duplicate-title error if the title exists; if `compute_embedding` and no
embedding is present, call the embedding capability on
`"{title}. {description}"`, storing `embedding=None` when the capability
fails (`embed` returns `none`); then store the item, evicting oldest-first
when the `max_items` capacity bound is exceeded (the spec's recommended
default policy). -/
def add_memory (embed : String → Option Embedding) (max_items : ℕ)
    (bank : MemoryBank) (item : MemoryItem) (compute_embedding : Bool) :
    Except String MemoryBank :=
  if (get_memory_by_title bank item.title).isSome then
    .error item.title
  else
    let item1 :=
      if compute_embedding && item.embedding.isNone then
        { item with embedding := embed (item.title ++ ". " ++ item.description) }
      else item
    let grown := bank ++ [item1]
    .ok (grown.drop (grown.length - max_items))

/-- `MemoryItemCreate` (`models/schemas.py`), as consumed by
`MemoryService.create_memory`. -/
structure MemoryItemCreate where
  title : String
  description : String
  content : String
  source_task_id : Option String
  is_from_success : Bool
  metadata : Option (List (String × String))
deriving Repr, DecidableEq

/-- `MemoryItemUpdate` (`models/schemas.py`), as consumed by
`MemoryService.update_memory`: every field optional, `None` meaning
not supplied. -/
structure MemoryItemUpdate where
  description : Option String
  content : Option String
  is_from_success : Option Bool
  metadata : Option (List (String × String))
deriving Repr, DecidableEq

/-- The distinct errors `MemoryService` raises: `ValueError` for a
duplicate title or an unknown title, `RuntimeError` wrapping anything
else. -/
inductive MemoryError where
  | duplicateTitle (title : String)
  | titleNotFound (title : String)
  | runtimeFailure (msg : String)
deriving Repr, DecidableEq

/-- `MemoryService.create_memory` (`memory_service.py`, lines 151-212):
fail with the already-exists `ValueError` when `get_memory_by_title` finds
the title, leaving the bank untouched; otherwise build the `MemoryItem`
(embedding `None`, to be computed by `add_memory`) and add it with
`compute_embedding=True`. The bank after the call is returned alongside the
result; on any error it is the input bank, since nothing was mutated before
the raise. -/
def create_memory (embed : String → Option Embedding) (max_items : ℕ)
    (bank : MemoryBank) (d : MemoryItemCreate) (now : String) :
    Except MemoryError MemoryItem × MemoryBank :=
  match get_memory_by_title bank d.title with
  | some _ => (.error (.duplicateTitle d.title), bank)
  | none =>
      let new_memory : MemoryItem :=
        { title := d.title
        , description := d.description
        , content := d.content
        , is_from_success := d.is_from_success
        , source_task_id := d.source_task_id
        , created_at := now
        , embedding := none
        , metadata := d.metadata.getD [] }
      match add_memory embed max_items bank new_memory true with
      | .error t => (.error (.runtimeFailure t), bank)
      | .ok bank1 => (.ok new_memory, bank1)

/-- `dict.__setitem__` on an insertion-ordered association list: overwrite
in place when the key exists, append otherwise. -/
def dictSet (l : List (String × String)) (k v : String) :
    List (String × String) :=
  if l.any fun p => p.1 == k then
    l.map fun p => if p.1 == k then (k, v) else p
  else l ++ [(k, v)]

/-- `dict.update(other)`: set each key of `other` in order. -/
def dictMerge (l other : List (String × String)) : List (String × String) :=
  other.foldl (fun acc p => dictSet acc p.1 p.2) l

/-- The in-place field updates of `MemoryService.update_memory`
(`memory_service.py`, lines 240-249): each supplied field overwrites the
item's field; a supplied metadata map is merged into the existing one. -/
def applyUpdate (m : MemoryItem) (u : MemoryItemUpdate) : MemoryItem :=
  { m with
      description := u.description.getD m.description
      content := u.content.getD m.content
      is_from_success := u.is_from_success.getD m.is_from_success
      metadata :=
        match u.metadata with
        | some extra => dictMerge m.metadata extra
        | none => m.metadata }

/-- `MemoryService.update_memory` (`memory_service.py`, lines 214-282):
look the item up by title (unknown-title `ValueError` otherwise, bank
untouched), apply the supplied field updates in place, and — only when a
description or content was supplied, an embedding function is configured
(`agent.memory.embedding_func`, modelled as `Option`), and the embedding
call succeeds — replace the embedding with the one computed from
`f"{memory.title}. {memory.description}"`, the description being the
updated one; an embedding failure only logs a warning and keeps the old
embedding. The bank with the item mutated in place is returned alongside
the result. -/
def update_memory (embedding_func : Option (String → Option Embedding))
    (bank : MemoryBank) (title : String) (u : MemoryItemUpdate) :
    Except MemoryError MemoryItem × MemoryBank :=
  match get_memory_by_title bank title with
  | none => (.error (.titleNotFound title), bank)
  | some m =>
      let m1 := applyUpdate m u
      let m2 :=
        if u.description.isSome || u.content.isSome then
          match embedding_func with
          | some f =>
              match f (m1.title ++ ". " ++ m1.description) with
              | some e => { m1 with embedding := some e }
              | none => m1
          | none => m1
        else m1
      (.ok m2, bank.map fun x => if x.title == title then m2 else x)

/-! ## Closed forms of the validator -/

lemma validate_liquid_none (u : Option String) (p : List (String × String))
    (ex no : Option String) :
    validate_experiment_result ⟨true, none, u, p, ex, no⟩ =
      .error .solubilityRequired := rfl

lemma validate_not_liquid_none (u : Option String)
    (p : List (String × String)) (ex no : Option String) :
    validate_experiment_result ⟨false, none, u, p, ex, no⟩ =
      .ok (⟨false, none, u, p, ex, no⟩, false, false) := rfl

lemma validate_liquid_some (u : Option String) (p : List (String × String))
    (ex no : Option String) (s : ℚ) :
    validate_experiment_result ⟨true, some s, u, p, ex, no⟩ =
      (if s < 0 then .error .negativeSolubility
        else .ok (⟨true, some s, u, p, ex, no⟩, false, decide (1000 < s))) := by
  by_cases h : s < 0 <;>
    simp [validate_experiment_result, solubilityPositive, h]

lemma validate_not_liquid_some (u : Option String)
    (p : List (String × String)) (ex no : Option String) (s : ℚ) :
    validate_experiment_result ⟨false, some s, u, p, ex, no⟩ =
      (if 0 < s then .ok (⟨false, none, u, p, ex, no⟩, true, false)
        else if s < 0 then .error .negativeSolubility
        else .ok (⟨false, some s, u, p, ex, no⟩, false, decide (1000 < s))) := by
  by_cases h : 0 < s
  · simp [validate_experiment_result, solubilityPositive, h]
  · by_cases h2 : s < 0 <;>
      simp [validate_experiment_result, solubilityPositive, h, h2]

/-! ## Theorems -/

/-- C1: whatever exception the background feedback task raises after the
submission was accepted (here: any outcome `.error e`, covering both agent
exceptions and the non-success `RuntimeError`), the recommendation's status
is set to `FAILED` and the per-id status record becomes `failed` carrying
the error message. `background_process_feedback` is a total function into
`ServiceState`, so no exception escapes to the submitting caller, who
already received the `accepted` acknowledgment from
`submit_feedback_async`. -/
theorem background_failure_marks_failed (s : ServiceState) (id e : String) :
    (background_process_feedback s id (.error e)).recStatus id =
        some .FAILED ∧
      check_processing_status (background_process_feedback s id (.error e))
          id =
        some { status := .failed, result := none, error := some e } := by
  constructor <;>
    simp [background_process_feedback, check_processing_status]

/-- C2: `submit_feedback` fails with the not-found error when the id is
unknown, always fails with the cancelled-state conflict when the current
status is `CANCELLED`, and accepts a re-submission against `COMPLETED`,
recording only the logged already-has-feedback warning. -/
theorem submit_feedback_lookup_policy (recs : String → Option RecStatus)
    (id : String) :
    (recs id = none →
      ∀ r, submit_feedback recs id r = .error (.notFound id)) ∧
    (recs id = some .CANCELLED →
      ∀ r, submit_feedback recs id r = .error (.cancelledConflict id)) ∧
    (recs id = some .COMPLETED →
      ∀ r r1 cw hw, validate_experiment_result r = .ok (r1, cw, hw) →
        submit_feedback recs id r = .ok ⟨true, r1, cw, hw⟩) := by
  refine ⟨fun h r => ?_, fun h r => ?_, fun h r r1 cw hw hv => ?_⟩
  · simp [submit_feedback, h]
  · simp [submit_feedback, h]
  · simp [submit_feedback, h, hv]

/-- C2 witness: a store holding one `CANCELLED` id, one `COMPLETED` id and
nothing else exercises all three branches. -/
theorem submit_feedback_lookup_policy_witness :
    submit_feedback
        (fun i => if i == "r1" then some .CANCELLED
          else if i == "r2" then some .COMPLETED else none)
        "r0" ⟨false, none, none, [], none, none⟩ =
      .error (.notFound "r0") ∧
    submit_feedback
        (fun i => if i == "r1" then some .CANCELLED
          else if i == "r2" then some .COMPLETED else none)
        "r1" ⟨false, none, none, [], none, none⟩ =
      .error (.cancelledConflict "r1") ∧
    submit_feedback
        (fun i => if i == "r1" then some .CANCELLED
          else if i == "r2" then some .COMPLETED else none)
        "r2" ⟨false, none, none, [], none, none⟩ =
      .ok ⟨true, ⟨false, none, none, [], none, none⟩, false, false⟩ := by
  refine ⟨?_, ?_, ?_⟩
  · exact (submit_feedback_lookup_policy _ "r0").1 (by decide) _
  · exact (submit_feedback_lookup_policy _ "r1").2.1 (by decide) _
  · exact (submit_feedback_lookup_policy _ "r2").2.2 (by decide) _ _ _ _
      (validate_not_liquid_none none [] none none)

/-- C3: validation fails exactly when liquid formed with no solubility, or
when a supplied solubility is negative; a positive solubility supplied with
`is_liquid_formed=False` is coerced to `None` with a warning and the
submission proceeds; a solubility above the sanity ceiling 1000 never
fails, producing only a warning (the high-solubility one when liquid
formed, the coercion one otherwise). -/
theorem validate_experiment_result_policy (r : ExperimentResultRequest) :
    ((∃ e, validate_experiment_result r = .error e) ↔
      (r.is_liquid_formed = true ∧ r.solubility = none) ∨
        (∃ s, r.solubility = some s ∧ s < 0)) ∧
    (∀ s : ℚ, r.is_liquid_formed = false → r.solubility = some s → 0 < s →
      validate_experiment_result r =
        .ok ({ r with solubility := none }, true, false)) ∧
    (∀ s : ℚ, r.solubility = some s → 1000 < s →
      ∃ r1 cw hw, validate_experiment_result r = .ok (r1, cw, hw) ∧
        (cw || hw) = true) := by
  obtain ⟨liq, sol, u, p, ex, no⟩ := r
  refine ⟨?_, ?_, ?_⟩
  · cases liq
    · rcases sol with _ | s
      · simp [validate_not_liquid_none]
      · rw [validate_not_liquid_some]
        rcases lt_trichotomy s 0 with h | h | h
        · simp [if_neg (asymm h), if_pos h, h]
        · subst h
          simp
        · simp [if_pos h, asymm h]
    · rcases sol with _ | s
      · simp [validate_liquid_none]
      · rw [validate_liquid_some]
        by_cases h : s < 0
        · simp [if_pos h, h]
        · simp [if_neg h, h]
  · rintro s rfl rfl hs
    rw [validate_not_liquid_some, if_pos hs]
  · rintro s rfl hs
    have hs0 : (0 : ℚ) < s := lt_trans (by norm_num) hs
    cases liq
    · exact ⟨⟨false, none, u, p, ex, no⟩, true, false,
        by rw [validate_not_liquid_some, if_pos hs0], rfl⟩
    · refine ⟨_, _, _, by rw [validate_liquid_some, if_neg (asymm hs0)], ?_⟩
      simp [hs]

/-- C3 witness: concrete requests exercising the failure
characterisation, the coercion branch and the above-ceiling branch. -/
theorem validate_experiment_result_policy_witness :
    (∃ e, validate_experiment_result ⟨true, none, none, [], none, none⟩ =
      .error e) ∧
    validate_experiment_result ⟨false, some 5, none, [], none, none⟩ =
      .ok (⟨false, none, none, [], none, none⟩, true, false) ∧
    (∃ r1 cw hw,
      validate_experiment_result ⟨true, some 2000, none, [], none, none⟩ =
        .ok (r1, cw, hw) ∧ (cw || hw) = true) := by
  refine ⟨?_, ?_, ?_⟩
  · exact (validate_experiment_result_policy
      ⟨true, none, none, [], none, none⟩).1.mpr (by simp)
  · exact (validate_experiment_result_policy
      ⟨false, some 5, none, [], none, none⟩).2.1 5 rfl rfl (by norm_num)
  · exact (validate_experiment_result_policy
      ⟨true, some 2000, none, [], none, none⟩).2.2 2000 rfl (by norm_num)

/-- C9: validation mutates the caller's request object in place; when
`submit_feedback` is called on a known, non-cancelled id with
`is_liquid_formed=False` and a positive solubility, the accepted submission
carries the caller's object with `solubility` now `None` and every other
field unchanged (the record-update expression fixes all remaining
fields). -/
theorem submit_feedback_coerces_in_place (recs : String → Option RecStatus)
    (id : String) (st : RecStatus) (r : ExperimentResultRequest) (s : ℚ)
    (hst : recs id = some st) (hnc : st ≠ .CANCELLED)
    (hl : r.is_liquid_formed = false) (hs : r.solubility = some s)
    (hpos : 0 < s) :
    ∃ res : SubmitAccepted, submit_feedback recs id r = .ok res ∧
      res.request = { r with solubility := none } := by
  have hv := (validate_experiment_result_policy r).2.1 s hl hs hpos
  refine ⟨⟨st = .COMPLETED, { r with solubility := none }, true, false⟩,
    ?_, rfl⟩
  simp [submit_feedback, hst, hnc, hv]

/-- C9 witness: a `PENDING` id with `is_liquid_formed=False` and
solubility 5; the caller's object comes back with solubility `None` and the
other fields intact. -/
theorem submit_feedback_coerces_in_place_witness :
    ∃ res : SubmitAccepted,
      submit_feedback (fun i => if i == "r1" then some .PENDING else none)
          "r1" ⟨false, some 5, some "g/L", [("color", "clear")],
            some "alice", none⟩ =
        .ok res ∧
      res.request = ⟨false, none, some "g/L", [("color", "clear")],
        some "alice", none⟩ := by
  exact submit_feedback_coerces_in_place _ "r1" .PENDING _ 5 (by decide)
    (by decide) rfl rfl (by norm_num)

/-- C5: the performance score is a pure deterministic function of
`is_liquid_formed` and `solubility` (in this embedding it is a Lean
function, so determinism and reproducibility across repeated calls are
definitional; the final conjunct records reproducibility at the probe
input): it stays in [0, 10], is 0 whenever no liquid formed, is monotone
non-decreasing in solubility when liquid formed, saturates at 10, and at
`solubility = 6.5` with liquid formed it is strictly between 0 and 10. -/
theorem get_performance_score_spec (er : AgentExperimentResult) :
    (0 ≤ get_performance_score er ∧ get_performance_score er ≤ 10) ∧
    (er.is_liquid_formed = false → get_performance_score er = 0) ∧
    (∀ s1 s2 : ℚ, s1 ≤ s2 →
      get_performance_score ⟨true, some s1⟩ ≤
        get_performance_score ⟨true, some s2⟩) ∧
    (∀ s : ℚ, 10 ≤ s → get_performance_score ⟨true, some s⟩ = 10) ∧
    (0 < get_performance_score ⟨true, some (13/2)⟩ ∧
      get_performance_score ⟨true, some (13/2)⟩ < 10 ∧
      get_performance_score ⟨true, some (13/2)⟩ =
        get_performance_score ⟨true, some (13/2)⟩) := by
  obtain ⟨liq, sol⟩ := er
  refine ⟨?_, ?_, ?_, ?_, ?_⟩
  · cases liq
    · exact ⟨le_refl (0 : ℚ), show (0 : ℚ) ≤ 10 by norm_num⟩
    · rcases sol with _ | s
      · exact ⟨le_refl (0 : ℚ), show (0 : ℚ) ≤ 10 by norm_num⟩
      · exact ⟨le_max_left 0 _,
          max_le (by norm_num) (min_le_left 10 s)⟩
  · intro h
    subst h
    rfl
  · intro s1 s2 h
    exact max_le_max le_rfl (min_le_min le_rfl h)
  · intro s h
    show max 0 (min 10 s) = 10
    rw [min_eq_left h]
    norm_num
  · refine ⟨?_, ?_, rfl⟩
    · show (0 : ℚ) < max 0 (min 10 (13 / 2))
      norm_num
    · show max 0 (min 10 (13 / 2)) < 10
      norm_num

/-- C5 witness: the score at concrete inputs — 0 without liquid,
monotone between solubility 3 and 4, saturated at 12. -/
theorem get_performance_score_spec_witness :
    get_performance_score ⟨false, some 5⟩ = 0 ∧
    get_performance_score ⟨true, some 3⟩ ≤
      get_performance_score ⟨true, some 4⟩ ∧
    get_performance_score ⟨true, some 12⟩ = 10 := by
  refine ⟨(get_performance_score_spec ⟨false, some 5⟩).2.1 rfl,
    (get_performance_score_spec ⟨false, none⟩).2.2.1 3 4 (by norm_num),
    (get_performance_score_spec ⟨false, none⟩).2.2.2.1 12 (by norm_num)⟩

/-! ## Status-map invariants -/

/-- The shape every record held in `processing_status` has: one of the
three documented status strings, a result exactly when completed, an error
exactly when failed. -/
def goodRecord (rec : StatusRecord) : Prop :=
  (rec.status = .processing ∨ rec.status = .completed ∨
      rec.status = .failed) ∧
    (rec.status = .completed → ∃ res, rec.result = some res) ∧
    (rec.status = .failed → ∃ e, rec.error = some e)

lemma goodRecord_applyEvent (s : ServiceState) (ev : FeedbackEvent)
    (hs : ∀ id rec, s.processing_status id = some rec → goodRecord rec) :
    ∀ id rec, (applyEvent s ev).processing_status id = some rec →
      goodRecord rec := by
  intro id rec h
  cases ev with
  | submit i =>
      simp only [applyEvent, submit_feedback_async, Function.update_apply] at h
      by_cases hid : id = i
      · rw [if_pos hid] at h
        cases h
        exact ⟨Or.inl rfl, by simp [goodRecord], by simp [goodRecord]⟩
      · rw [if_neg hid] at h
        exact hs id rec h
  | background i outcome =>
      cases outcome with
      | ok res =>
          simp only [applyEvent, background_process_feedback,
            Function.update_apply] at h
          by_cases hid : id = i
          · rw [if_pos hid] at h
            cases h
            exact ⟨Or.inr (Or.inl rfl), fun _ => ⟨res, rfl⟩, by simp⟩
          · rw [if_neg hid] at h
            exact hs id rec h
      | error e =>
          simp only [applyEvent, background_process_feedback,
            Function.update_apply] at h
          by_cases hid : id = i
          · rw [if_pos hid] at h
            cases h
            exact ⟨Or.inr (Or.inr rfl), by simp, fun _ => ⟨e, rfl⟩⟩
          · rw [if_neg hid] at h
            exact hs id rec h

lemma goodRecord_runEvents (s : ServiceState) (t : List FeedbackEvent)
    (hs : ∀ id rec, s.processing_status id = some rec → goodRecord rec) :
    ∀ id rec, (runEvents s t).processing_status id = some rec →
      goodRecord rec := by
  induction t generalizing s with
  | nil => exact hs
  | cons ev t ih =>
      exact ih (applyEvent s ev) (goodRecord_applyEvent s ev hs)

lemma processing_status_persists (s : ServiceState) (ev : FeedbackEvent)
    (id : String) (h : (s.processing_status id).isSome) :
    ((applyEvent s ev).processing_status id).isSome := by
  cases ev with
  | submit i =>
      simp only [applyEvent, submit_feedback_async, Function.update_apply]
      by_cases hid : id = i <;> simp [hid, h]
  | background i outcome =>
      cases outcome <;>
        simp only [applyEvent, background_process_feedback,
          Function.update_apply] <;>
        by_cases hid : id = i <;> simp [hid, h]

lemma processing_status_persists_run (s : ServiceState)
    (t : List FeedbackEvent) (id : String)
    (h : (s.processing_status id).isSome) :
    ((runEvents s t).processing_status id).isSome := by
  induction t generalizing s with
  | nil => exact h
  | cons ev t ih =>
      exact ih (applyEvent s ev) (processing_status_persists s ev id h)

lemma submitted_has_entry (t : List FeedbackEvent) (id : String)
    (h : FeedbackEvent.submit id ∈ t) :
    ∀ s : ServiceState, ((runEvents s t).processing_status id).isSome := by
  induction t with
  | nil => cases h
  | cons ev t ih =>
      intro s
      rcases List.mem_cons.mp h with h1 | h1
      · rw [← h1]
        exact processing_status_persists_run _ t id
          (by simp [applyEvent, submit_feedback_async,
            Function.update_same])
      · exact ih h1 (applyEvent s ev)

/-- C6: every id submitted for asynchronous processing has a status
record; `check_processing_status` — a plain lookup in the shared status
map, with no wait on the executor — returns it, its status is one of
`processing`, `completed`, `failed`, it carries a result when completed and
the captured error when failed. -/
theorem check_status_after_submit (r0 : String → Option RecStatus)
    (t : List FeedbackEvent) (id : String)
    (h : FeedbackEvent.submit id ∈ t) :
    ∃ rec : StatusRecord,
      check_processing_status (runEvents (initState r0) t) id = some rec ∧
        (rec.status = .processing ∨ rec.status = .completed ∨
          rec.status = .failed) ∧
        (rec.status = .completed → ∃ res, rec.result = some res) ∧
        (rec.status = .failed → ∃ e, rec.error = some e) := by
  have hdom := submitted_has_entry t id h (initState r0)
  rcases Option.isSome_iff_exists.mp hdom with ⟨rec, hrec⟩
  have hgood := goodRecord_runEvents (initState r0) t
    (fun _ _ hx => by simp [initState] at hx) id rec hrec
  exact ⟨rec, hrec, hgood.1, hgood.2.1, hgood.2.2⟩

/-- C6 witness: a trace that submits one id and completes another. -/
theorem check_status_after_submit_witness :
    ∃ rec : StatusRecord,
      check_processing_status
          (runEvents (initState fun _ => none)
            [.submit "r1",
              .background "r1" (.ok ⟨none, none, some true, [], 0, false, 0⟩)])
          "r1" = some rec ∧
        (rec.status = .processing ∨ rec.status = .completed ∨
          rec.status = .failed) ∧
        (rec.status = .completed → ∃ res, rec.result = some res) ∧
        (rec.status = .failed → ∃ e, rec.error = some e) :=
  check_status_after_submit (fun _ => none) _ "r1" (by simp)

/-- C10: an id never submitted for asynchronous processing (no event of
the trace concerns it) has no entry in the status map, and
`check_processing_status` returns `None` for it rather than raising or
returning one of the three documented status values. -/
theorem check_status_unknown_id (r0 : String → Option RecStatus)
    (t : List FeedbackEvent) (id : String)
    (h : ∀ ev ∈ t, FeedbackEvent.key ev ≠ id) :
    check_processing_status (runEvents (initState r0) t) id = none := by
  suffices hgen : ∀ s : ServiceState, s.processing_status id = none →
      (runEvents s t).processing_status id = none by
    exact hgen (initState r0) rfl
  induction t with
  | nil => exact fun s hs => hs
  | cons ev t ih =>
      intro s hs
      have hkey : FeedbackEvent.key ev ≠ id := h ev (List.mem_cons_self ev t)
      have hne : id ≠ FeedbackEvent.key ev := fun hx => hkey hx.symm
      have hstep : (applyEvent s ev).processing_status id = none := by
        cases ev with
        | submit i =>
            simp only [FeedbackEvent.key] at hne
            simp [applyEvent, submit_feedback_async, Function.update_apply,
              hne, hs]
        | background i outcome =>
            simp only [FeedbackEvent.key] at hne
            cases outcome <;>
              simp [applyEvent, background_process_feedback,
                Function.update_apply, hne, hs]
      exact ih (fun e he => h e (List.mem_cons_of_mem ev he))
        (applyEvent s ev) hstep

/-- C10 witness: a trace touching only `"a"` yields `None` for `"b"`. -/
theorem check_status_unknown_id_witness :
    check_processing_status
        (runEvents (initState fun _ => none)
          [.submit "a", .background "a" (.error "boom")]) "b" = none :=
  check_status_unknown_id (fun _ => none) _ "b"
    (by
      intro ev hev
      simp only [List.mem_cons, List.not_mem_nil, or_false] at hev
      rcases hev with rfl | rfl <;> decide)

/-! ## Migration idempotence -/

lemma migrateEntry_fst_idem (recs : String → Option RecommendationRecord)
    (summary : Formulation → String) (id : String) (meta : IndexEntry) :
    (migrateEntry recs summary id
        (migrateEntry recs summary id meta).1).1 =
      (migrateEntry recs summary id meta).1 := by
  unfold migrateEntry
  by_cases h : meta.formulation.isSome && meta.confidence.isSome
  · simp [h]
  · cases hrec : recs id with
    | none => simp [h, hrec]
    | some rec => simp [h, hrec]

/-- C4: running the migration a second time on the already-migrated index
leaves it entry-for-entry (hence, with the deterministic JSON dump,
byte-for-byte) identical; an entry already carrying the `formulation` and
`confidence` keys is skipped untouched; and each invocation's backup —
written before the loop mutates anything — is exactly the pre-migration
index (one backup file per run). -/
theorem migrate_index_idempotent (recs : String → Option RecommendationRecord)
    (summary : Formulation → String) (index : List (String × IndexEntry)) :
    (migrate_index recs summary
          (migrate_index recs summary index).index).index =
        (migrate_index recs summary index).index ∧
      (migrate_index recs summary index).backup = index ∧
      (∀ id meta, meta.formulation.isSome → meta.confidence.isSome →
        migrateEntry recs summary id meta = (meta, .skipped)) := by
  refine ⟨?_, rfl, ?_⟩
  · simp only [migrate_index, List.map_map]
    apply List.map_congr_left
    intro p _
    simp only [Function.comp_apply]
    rw [migrateEntry_fst_idem]
  · intro id meta h1 h2
    unfold migrateEntry
    simp [h1, h2]

/-- C4 witness: a one-entry index whose entry already carries both fields
is skipped, and the backup equals the input index. -/
theorem migrate_index_idempotent_witness :
    (migrate_index (fun _ => none) (fun _ => "sum")
          [("a", ⟨"PENDING", "m", "t0", "t0", some "s", some [],
            some 1, some none⟩)]).backup =
        [("a", ⟨"PENDING", "m", "t0", "t0", some "s", some [],
          some 1, some none⟩)] ∧
      migrateEntry (fun _ => none) (fun _ => "sum") "a"
          ⟨"PENDING", "m", "t0", "t0", some "s", some [], some 1, some none⟩ =
        (⟨"PENDING", "m", "t0", "t0", some "s", some [], some 1, some none⟩,
          .skipped) :=
  ⟨(migrate_index_idempotent (fun _ => none) (fun _ => "sum")
      [("a", ⟨"PENDING", "m", "t0", "t0", some "s", some [],
        some 1, some none⟩)]).2.1,
    (migrate_index_idempotent (fun _ => none) (fun _ => "sum") []).2.2 "a"
      ⟨"PENDING", "m", "t0", "t0", some "s", some [], some 1, some none⟩
      rfl rfl⟩

/-! ## Memory title uniqueness -/

/-- The store invariant: titles are unique within a bank. -/
def titlesNodup (bank : MemoryBank) : Prop :=
  (bank.map fun m => m.title).Nodup

lemma get_memory_by_title_eq_none (bank : MemoryBank) (title : String) :
    get_memory_by_title bank title = none ↔
      ∀ m ∈ bank, m.title ≠ title := by
  unfold get_memory_by_title
  rw [List.find?_eq_none]
  constructor
  · intro h m hm
    simpa using h m hm
  · intro h m hm
    simpa using h m hm

/-- The item `create_memory` builds, with the embedding `add_memory`
computed for it (it is created with `embedding=None` and
`compute_embedding=True`, so `add_memory` fills it from
`"{title}. {description}"`). -/
def freshItem (embed : String → Option Embedding) (d : MemoryItemCreate)
    (now : String) : MemoryItem :=
  { title := d.title
  , description := d.description
  , content := d.content
  , is_from_success := d.is_from_success
  , source_task_id := d.source_task_id
  , created_at := now
  , embedding := embed (d.title ++ ". " ++ d.description)
  , metadata := d.metadata.getD [] }

lemma create_memory_fresh (embed : String → Option Embedding)
    (max_items : ℕ) (bank : MemoryBank) (d : MemoryItemCreate)
    (now : String) (hnone : get_memory_by_title bank d.title = none) :
    create_memory embed max_items bank d now =
      (.ok { freshItem embed d now with embedding := none },
        ((bank ++ [freshItem embed d now]).drop
          ((bank ++ [freshItem embed d now]).length - max_items))) := by
  unfold create_memory add_memory freshItem
  rw [hnone]
  simp [hnone]

lemma titlesNodup_append_drop (bank : MemoryBank) (item : MemoryItem)
    (k : ℕ) (hnd : titlesNodup bank)
    (hfresh : ∀ m ∈ bank, m.title ≠ item.title) :
    titlesNodup ((bank ++ [item]).drop k) := by
  have hnd2 : titlesNodup (bank ++ [item]) := by
    unfold titlesNodup
    rw [List.map_append, List.nodup_append]
    refine ⟨hnd, by simp, ?_⟩
    intro a ha hb
    simp only [List.map_cons, List.map_nil, List.mem_singleton] at hb
    rcases List.mem_map.mp ha with ⟨m, hm, hma⟩
    exact hfresh m hm (hma.trans hb)
  unfold titlesNodup at hnd2 ⊢
  rw [List.map_drop]
  exact hnd2.sublist (List.drop_sublist _ _)

/-- C7: title uniqueness is enforced and preserved by creation. Creating a
memory whose title already exists fails with the duplicate-title error and
returns the bank unchanged; creating one with a fresh title succeeds,
returning the new item; and a bank with pairwise-distinct titles still has
pairwise-distinct titles afterwards (the capacity eviction after the append
only removes items). -/
theorem create_memory_unique_titles (embed : String → Option Embedding)
    (max_items : ℕ) (bank : MemoryBank) (d : MemoryItemCreate)
    (now : String) :
    ((∃ m ∈ bank, m.title = d.title) →
      create_memory embed max_items bank d now =
        (.error (.duplicateTitle d.title), bank)) ∧
    ((∀ m ∈ bank, m.title ≠ d.title) →
      ∃ item, (create_memory embed max_items bank d now).1 = .ok item ∧
        item.title = d.title) ∧
    (titlesNodup bank →
      titlesNodup (create_memory embed max_items bank d now).2) := by
  refine ⟨?_, ?_, ?_⟩
  · rintro ⟨m, hm, ht⟩
    have hfind : (get_memory_by_title bank d.title).isSome := by
      unfold get_memory_by_title
      rw [List.find?_isSome]
      exact ⟨m, hm, by simp [ht]⟩
    rcases Option.isSome_iff_exists.mp hfind with ⟨m0, hm0⟩
    unfold create_memory
    rw [hm0]
  · intro hfresh
    have hnone : get_memory_by_title bank d.title = none :=
      (get_memory_by_title_eq_none bank d.title).mpr hfresh
    rw [create_memory_fresh embed max_items bank d now hnone]
    exact ⟨_, rfl, rfl⟩
  · intro hnd
    cases hfind : get_memory_by_title bank d.title with
    | some m =>
        unfold create_memory
        rw [hfind]
        exact hnd
    | none =>
        rw [create_memory_fresh embed max_items bank d now hfind]
        exact titlesNodup_append_drop bank _ _ hnd
          ((get_memory_by_title_eq_none bank d.title).mp hfind)

/-- C7 witness: a bank holding one item titled `"t1"`: re-creating `"t1"`
fails leaving the bank unchanged, creating `"t2"` succeeds, and title
uniqueness is preserved. -/
theorem create_memory_unique_titles_witness :
    create_memory (fun _ => none) 10
        [⟨"t1", "d", "c", true, none, "d0", none, []⟩]
        ⟨"t1", "d2", "c2", none, false, none⟩ "d1" =
      (.error (.duplicateTitle "t1"),
        [⟨"t1", "d", "c", true, none, "d0", none, []⟩]) ∧
    (∃ item,
      (create_memory (fun _ => none) 10
          [⟨"t1", "d", "c", true, none, "d0", none, []⟩]
          ⟨"t2", "d2", "c2", none, false, none⟩ "d1").1 = .ok item ∧
        item.title = "t2") ∧
    titlesNodup (create_memory (fun _ => none) 10
        [⟨"t1", "d", "c", true, none, "d0", none, []⟩]
        ⟨"t2", "d2", "c2", none, false, none⟩ "d1").2 := by
  refine ⟨?_, ?_, ?_⟩
  · exact (create_memory_unique_titles (fun _ => none) 10
      [⟨"t1", "d", "c", true, none, "d0", none, []⟩]
      ⟨"t1", "d2", "c2", none, false, none⟩ "d1").1
      ⟨_, List.mem_singleton.mpr rfl, rfl⟩
  · exact (create_memory_unique_titles (fun _ => none) 10
      [⟨"t1", "d", "c", true, none, "d0", none, []⟩]
      ⟨"t2", "d2", "c2", none, false, none⟩ "d1").2.1
      (by intro m hm; rcases List.mem_singleton.mp hm with rfl; decide)
  · exact (create_memory_unique_titles (fun _ => none) 10
      [⟨"t1", "d", "c", true, none, "d0", none, []⟩]
      ⟨"t2", "d2", "c2", none, false, none⟩ "d1").2.2
      (by unfold titlesNodup; decide)

/-! ## Memory update and embedding recomputation -/

/-- C8 counterexample: with no embedding function configured
(`agent.memory.embedding_func` falsy), an update that changes the
description leaves each item's old embedding exactly where it was: two
banks whose single items differ only in their stored embedding receive the
same update (title `"t"`, new description `"new"`) and end with different
embeddings, each equal to its pre-update value — so the embedding is not
recomputed from the title and the new description, contradicting the claim
at this input. -/
theorem update_memory_keeps_stale_embedding :
    (update_memory none [⟨"t", "old", "c", true, none, "d0", some [1], []⟩]
        "t" ⟨some "new", none, none, none⟩).2 =
      [⟨"t", "new", "c", true, none, "d0", some [1], []⟩] ∧
    (update_memory none [⟨"t", "old", "c", true, none, "d0", some [2], []⟩]
        "t" ⟨some "new", none, none, none⟩).2 =
      [⟨"t", "new", "c", true, none, "d0", some [2], []⟩] := by
  constructor <;> rfl

/-- C8 as amended: when an embedding function is configured and its call
succeeds, an update that supplies a description or content recomputes the
item's embedding from `"{title}. {description}"` with the new description
before returning; when no embedding function is configured or the call
fails, the previous embedding is kept; an update supplying neither
description nor content always leaves the embedding unchanged. -/
theorem update_memory_embedding_policy
    (bank : MemoryBank) (title : String) (u : MemoryItemUpdate)
    (m : MemoryItem) (hfind : get_memory_by_title bank title = some m) :
    (∀ (f : String → Option Embedding) (e : Embedding),
      (u.description.isSome || u.content.isSome) = true →
      f ((applyUpdate m u).title ++ ". " ++ (applyUpdate m u).description) =
        some e →
      (update_memory (some f) bank title u).1 =
        .ok { applyUpdate m u with embedding := some e }) ∧
    (∀ f : String → Option Embedding,
      (u.description.isSome || u.content.isSome) = true →
      f ((applyUpdate m u).title ++ ". " ++ (applyUpdate m u).description) =
        none →
      (update_memory (some f) bank title u).1 = .ok (applyUpdate m u)) ∧
    ((u.description.isSome || u.content.isSome) = true →
      (update_memory none bank title u).1 = .ok (applyUpdate m u)) ∧
    (u.description = none → u.content = none →
      ∀ g : Option (String → Option Embedding),
        (update_memory g bank title u).1 = .ok (applyUpdate m u) ∧
          (applyUpdate m u).embedding = m.embedding) := by
  refine ⟨?_, ?_, ?_, ?_⟩
  · intro f e hsupplied hemb
    unfold update_memory
    rw [hfind]
    simp [hsupplied, hemb]
  · intro f hsupplied hemb
    unfold update_memory
    rw [hfind]
    simp [hsupplied, hemb]
  · intro hsupplied
    unfold update_memory
    rw [hfind]
    simp [hsupplied]
  · intro hd hc g
    refine ⟨?_, by simp [applyUpdate]⟩
    unfold update_memory
    rw [hfind]
    simp [hd, hc]

/-- C8 amended witness: with a succeeding embedding function the supplied
description forces recomputation; an update supplying nothing leaves the
embedding untouched. -/
theorem update_memory_embedding_policy_witness :
    (update_memory (some fun _ => some [7])
        [⟨"t", "old", "c", true, none, "d0", some [1], []⟩]
        "t" ⟨some "new", none, none, none⟩).1 =
      .ok ⟨"t", "new", "c", true, none, "d0", some [7], []⟩ ∧
    (update_memory none
        [⟨"t", "old", "c", true, none, "d0", some [1], []⟩]
        "t" ⟨none, none, some false, none⟩).1 =
      .ok ⟨"t", "old", "c", false, none, "d0", some [1], []⟩ := by
  constructor
  · exact (update_memory_embedding_policy
      [⟨"t", "old", "c", true, none, "d0", some [1], []⟩] "t"
      ⟨some "new", none, none, none⟩
      ⟨"t", "old", "c", true, none, "d0", some [1], []⟩ rfl).1
      (fun _ => some [7]) [7] rfl rfl
  · exact ((update_memory_embedding_policy
      [⟨"t", "old", "c", true, none, "d0", some [1], []⟩] "t"
      ⟨none, none, some false, none⟩
      ⟨"t", "old", "c", true, none, "d0", some [1], []⟩ rfl).2.2.2
      rfl rfl none).1

end DES
